import Mathlib

/-!
Verification of the report-lifecycle and cascade-deletion core of the
construction-report Telegram bot.

The definitions below are a shallow embedding of the Python source:

* `construction_report_bot/database/models.py` — the relational schema
  (rows become structures, tables become lists of rows inside `DB`);
* `construction_report_bot/database/crud.py` — the CRUD layer
  (`get_user_by_access_code`, `delete_object`, `delete_report_relations`,
  `create_report`, `update_report`, `get_reports_by_date_range`);
* `construction_report_bot/services/report_service.py` — `ReportService`
  (`add_itr_to_report`, `add_workers_to_report`, `add_equipment_to_report`,
  `send_report`);
* `construction_report_bot/handlers/common.py` — `process_access_code`;
* `construction_report_bot/handlers/admin/report_edit.py` —
  `validate_report_data` and `process_save_report`.

Datetimes are modelled as `Nat` timestamps; SQLAlchemy sessions are modelled
by explicit state passing, and — where transaction mechanics matter — by a
`Tx` record carrying the last committed database next to the current one.
-/

/-- A row of the `users` table (`models.py`, class `User`).
`created_at` is irrelevant to every property below and omitted. -/
structure UserRow where
  id : Nat
  telegram_id : Option Nat
  username : Option String
  role : String
  access_code : Option String
deriving DecidableEq, Repr

/-- A row of the `clients` table (`models.py`, class `Client`). -/
structure ClientRow where
  id : Nat
  user_id : Nat
  full_name : String
  organization : String
  contact_info : Option String
deriving DecidableEq, Repr

/-- A row of the `objects` table (`models.py`, class `Object`). -/
structure ObjectRow where
  id : Nat
  name : String
deriving DecidableEq, Repr

/-- A row of the `itr` table (`models.py`, class `ITR`). -/
structure ItrRow where
  id : Nat
  full_name : String
deriving DecidableEq, Repr

/-- A row of the `workers` table (`models.py`, class `Worker`). -/
structure WorkerRow where
  id : Nat
  full_name : String
  position : String
deriving DecidableEq, Repr

/-- A row of the `equipment` table (`models.py`, class `Equipment`). -/
structure EquipmentRow where
  id : Nat
  name : String
deriving DecidableEq, Repr

/-- A row of the `reports` table (`models.py`, class `Report`).
`date` and `sent_at` are `Nat` timestamps; `type` holds `morning`/`evening`,
`status` holds `draft`/`sent`. -/
structure ReportRow where
  id : Nat
  object_id : Nat
  date : Nat
  type : String
  report_type : String
  work_subtype : Option String
  comments : Option String
  status : String
  sent_at : Option Nat
  recipient_id : Option Nat
deriving DecidableEq, Repr

/-- A row of the `report_photos` table (`models.py`, class `ReportPhoto`). -/
structure PhotoRow where
  id : Nat
  report_id : Nat
  file_path : String
  description : Option String
deriving DecidableEq, Repr

/-- The whole relational state: one list of rows per table of `models.py`.
The join tables `report_itr`, `report_workers`, `report_equipment` and
`client_objects` are lists of id pairs, exactly as declared in `models.py`
(the `quantity` column of `report_equipment` defaults to 1 and is never
written by the application, so it is omitted). -/
structure DB where
  users : List UserRow
  clients : List ClientRow
  objects : List ObjectRow
  itrs : List ItrRow
  workers : List WorkerRow
  equipment : List EquipmentRow
  reports : List ReportRow
  reportItr : List (Nat × Nat)
  reportWorkers : List (Nat × Nat)
  reportEquipment : List (Nat × Nat)
  reportPhotos : List PhotoRow
  clientObjects : List (Nat × Nat)
deriving DecidableEq, Repr

/-- Embeds `crud.get_user_by_access_code`: `SELECT * FROM users WHERE access_code = code`,
first row or `None`. -/
def get_user_by_access_code (db : DB) (code : String) : Option UserRow :=
  db.users.find? (fun u => u.access_code == some code)

/-- The `update_user` call issued by `process_access_code`
(`handlers/common.py` lines 74-81): it sets `telegram_id` and `username`
of the given user — and nothing else. -/
def update_user_telegram (db : DB) (user_id : Nat) (tg : Nat) (uname : String) : DB :=
  { db with users := db.users.map (fun u =>
      if u.id == user_id then { u with telegram_id := some tg, username := some uname } else u) }

/-- Embeds `process_access_code` of `handlers/common.py`: look the user up by the
entered access code; when found, bind `telegram_id`/`username`; when not
found, report an invalid code and change nothing. -/
def process_access_code (db : DB) (tg : Nat) (uname : String) (code : String) : DB :=
  match get_user_by_access_code db code with
  | some u => update_user_telegram db u.id tg uname
  | none => db

/-- Session-transaction state: `committed` is what the database durably holds,
`current` is the session's uncommitted view. `session.commit()` publishes the
current view; `session.rollback()` discards it. -/
structure Tx where
  committed : DB
  current : DB
deriving DecidableEq, Repr

/-- Models `session.commit()`. -/
def txCommit (t : Tx) : Tx := { committed := t.current, current := t.current }

/-- Models `session.rollback()`. -/
def txRollback (t : Tx) : Tx := { committed := t.committed, current := t.committed }

/-- The four deletions of `crud.delete_report_relations` (lines 517-535):
remove the report's `report_equipment`, `report_itr`, `report_workers`
join rows and its `report_photos` rows. -/
def clearReportRelations (db : DB) (rid : Nat) : DB :=
  { db with
    reportEquipment := db.reportEquipment.filter (fun p => p.1 != rid),
    reportItr := db.reportItr.filter (fun p => p.1 != rid),
    reportWorkers := db.reportWorkers.filter (fun p => p.1 != rid),
    reportPhotos := db.reportPhotos.filter (fun ph => ph.report_id != rid) }

/-- Embeds `crud.delete_report_relations` (lines 514-542): performs the four
deletions and then — still inside the enclosing cascade — calls
`session.commit()` (line 537). -/
def delete_report_relations (t : Tx) (rid : Nat) : Tx :=
  txCommit { t with current := clearReportRelations t.current rid }

/-- Models `DELETE FROM reports WHERE id = rid` (`crud.delete_object` line 212-214). -/
def deleteReportRow (db : DB) (rid : Nat) : DB :=
  { db with reports := db.reports.filter (fun r => r.id != rid) }

/-- The per-report loop of `crud.delete_object` (lines 207-215): for each
loaded report, delete its relations (which commits), then delete the report
row. `failRid` injects a storage failure at the report-row deletion of the
named report, modelling an exception raised by `session.execute`; the
exception propagates to the `except` clause, which rolls back (line 235)
and re-raises. The boolean result records whether an exception was raised. -/
def deleteObjectReportsLoop (failRid : Option Nat) : Tx → List ReportRow → Tx × Bool
  | t, [] => (t, false)
  | t, r :: rest =>
    let t1 := delete_report_relations t r.id
    if failRid == some r.id then (txRollback t1, true)
    else deleteObjectReportsLoop failRid
      { committed := t1.committed, current := deleteReportRow t1.current r.id } rest

/-- Embeds `crud.delete_object` (lines 188-237): load the object (return `false`
when absent); load its reports; per report delete relations then the row;
delete the object's `client_objects` rows; delete the object row; commit.
Any exception rolls back and re-raises (`Except.error ()` here). -/
def delete_object (t : Tx) (oid : Nat) (failRid : Option Nat) : Tx × Except Unit Bool :=
  if t.current.objects.any (fun o => o.id == oid) then
    let reps := t.current.reports.filter (fun r => r.object_id == oid)
    match deleteObjectReportsLoop failRid t reps with
    | (t1, true) => (t1, Except.error ())
    | (t1, false) =>
      let db2 := { t1.current with
        clientObjects := t1.current.clientObjects.filter (fun p => p.2 != oid) }
      let db3 := { db2 with objects := db2.objects.filter (fun o => o.id != oid) }
      (txCommit { t1 with current := db3 }, Except.ok true)
  else (t, Except.ok false)

/-- Embeds `ReportService.add_itr_to_report` (`report_service.py` lines 66-95):
load the report (return `None` when absent); look each given ITR id up,
silently skipping absent ones; then *replace* the report's ITR association
(`report.itr_personnel = itrs`) — at row level, drop every `report_itr`
row of this report and insert one row per surviving id — and commit. -/
def add_itr_to_report (db : DB) (rid : Nat) (itr_ids : List Nat) : Option DB :=
  if db.reports.any (fun r => r.id == rid) then
    let itrs := itr_ids.filter (fun i => db.itrs.any (fun row => row.id == i))
    some { db with reportItr :=
      db.reportItr.filter (fun p => p.1 != rid) ++ itrs.map (fun i => (rid, i)) }
  else none

/-- Embeds `ReportService.add_workers_to_report` (`report_service.py` lines 97-118):
load the report (the source dereferences it unguarded, so an absent report
raises — `none` here); look each worker id up via `session.get`, skipping
absent ones; then *extend* the report's worker association
(`report.workers.extend(workers)`) — at row level, append one
`report_workers` row per surviving id — and commit. -/
def add_workers_to_report (db : DB) (rid : Nat) (worker_ids : List Nat) : Option DB :=
  if db.reports.any (fun r => r.id == rid) then
    let ws := worker_ids.filter (fun w => db.workers.any (fun row => row.id == w))
    some { db with reportWorkers := db.reportWorkers ++ ws.map (fun w => (rid, w)) }
  else none

/-- Embeds `ReportService.add_equipment_to_report` (`report_service.py` lines
120-142): load the report (unguarded dereference, so `none` when absent);
look each equipment id up, skipping absent ones; then replace the report's
equipment association (`report.equipment = equipment_list`) — at row level,
drop every `report_equipment` row of this report and insert one row per
surviving id — and commit. Each element of the source's `equipment_data`
is a dict whose only consulted key is `equipment_id`; the list of those
ids is passed directly here. -/
def add_equipment_to_report (db : DB) (rid : Nat) (equipment_ids : List Nat) : Option DB :=
  if db.reports.any (fun r => r.id == rid) then
    let es := equipment_ids.filter (fun e => db.equipment.any (fun row => row.id == e))
    some { db with reportEquipment :=
      db.reportEquipment.filter (fun p => p.1 != rid) ++ es.map (fun e => (rid, e)) }
  else none

/-- The field update applied by `ReportService.send_report`
(`report_service.py` lines 191-199) to the targeted report row. -/
def sentUpdate (recip now : Nat) (r : ReportRow) : ReportRow :=
  { r with status := "sent", sent_at := some now, recipient_id := some recip }

/-- Embeds `ReportService.send_report` → `crud.update_report` (lines 477-482):
`UPDATE reports SET status='sent', sent_at=now, recipient_id=recip
WHERE id = rid`, then commit. -/
def send_report (db : DB) (rid recip now : Nat) : DB :=
  { db with reports := db.reports.map (fun r =>
      if r.id == rid then sentUpdate recip now r else r) }

/-- The `data` dict handed to `crud.create_report` /
`validate_report_data`: one `Option` per possible key (`none` = key
absent). `itr_list` is carried by the FSM state and checked by the
validator but is not an attribute of `Report`, so `create_report`
ignores it; `itr_id`, `workers_list` and `equipment_list` are the
special-cased keys of `create_report`. -/
structure ReportData where
  report_id : Option Nat := none
  object_id : Option Nat := none
  date : Option Nat := none
  type : Option String := none
  report_type : Option String := none
  work_subtype : Option (Option String) := none
  comments : Option (Option String) := none
  status : Option String := none
  sent_at : Option Nat := none
  recipient_id : Option Nat := none
  itr_id : Option Nat := none
  itr_list : Option (List Nat) := none
  workers_list : Option (List Nat) := none
  equipment_list : Option (List Nat) := none
deriving DecidableEq, Repr

/-- The attribute-copy loop of `crud.create_report` (lines 392-394 and
433-435): every key of the dict that names a `Report` column overwrites
that column; `report_id`, `itr_id`, `itr_list`, `workers_list` and
`equipment_list` are not columns and are skipped. -/
def applyDataToReport (r : ReportRow) (d : ReportData) : ReportRow :=
  { r with
    object_id := d.object_id.getD r.object_id,
    date := d.date.getD r.date,
    type := d.type.getD r.type,
    report_type := d.report_type.getD r.report_type,
    work_subtype := d.work_subtype.getD r.work_subtype,
    comments := d.comments.getD r.comments,
    status := d.status.getD r.status,
    sent_at := match d.sent_at with
      | some v => some v
      | none => r.sent_at,
    recipient_id := match d.recipient_id with
      | some v => some v
      | none => r.recipient_id }

/-- A fresh primary key for a new `reports` row (the autoincrement the
database engine provides on insert). -/
def freshReportId (db : DB) : Nat :=
  (db.reports.map (fun r => r.id)).foldr Nat.max 0 + 1

/-- A newly constructed `Report()` (`crud.create_report` line 430) before
the attribute loop: `models.py` defaults — `status` is `draft`, `date`
defaults to the creation instant (0 stands for it here; every call site
of interest supplies `date` explicitly or leaves it irrelevant), the
NOT NULL string columns start empty, nullable columns start `NULL`. -/
def defaultReport (rid : Nat) : ReportRow :=
  { id := rid, object_id := 0, date := 0, type := "", report_type := "",
    work_subtype := none, comments := none, status := "draft",
    sent_at := none, recipient_id := none }

/-- Embeds `crud.create_report` (lines 384-475), the create-or-update upsert.

Update path (dict carries `report_id` and such a report exists): copy the
column-named keys onto the row; if `itr_id` names an existing ITR, replace
the report's ITR association with that single ITR; if `equipment_list` is
present, delete every `report_equipment` row of the report and insert one
row per given id (no existence check in the source); commit; return the id.
Note the update path never touches `workers_list`.

Create path (no `report_id`, or no report with that id): build a new row
from the column-named keys, attach the ITR if `itr_id` names an existing
one, attach each existing worker of `workers_list`, insert the row, insert
one `report_equipment` row per id of `equipment_list`, commit. -/
def create_report (db : DB) (d : ReportData) : DB × Nat :=
  match d.report_id.bind (fun rid =>
      if db.reports.any (fun r => r.id == rid) then some rid else none) with
  | some rid =>
    let db1 := { db with reports := db.reports.map (fun r =>
        if r.id == rid then applyDataToReport r d else r) }
    let db2 := match d.itr_id with
      | some i =>
        if db1.itrs.any (fun row => row.id == i) then
          { db1 with reportItr :=
            db1.reportItr.filter (fun p => p.1 != rid) ++ [(rid, i)] }
        else db1
      | none => db1
    let db3 := match d.equipment_list with
      | some es =>
        { db2 with reportEquipment :=
          db2.reportEquipment.filter (fun p => p.1 != rid) ++ es.map (fun e => (rid, e)) }
      | none => db2
    (db3, rid)
  | none =>
    let rid := freshReportId db
    let r := applyDataToReport (defaultReport rid) d
    let db1 := { db with reports := db.reports ++ [r] }
    let db2 := match d.itr_id with
      | some i =>
        if db1.itrs.any (fun row => row.id == i) then
          { db1 with reportItr := db1.reportItr ++ [(rid, i)] }
        else db1
      | none => db1
    let db3 := match d.workers_list with
      | some ws =>
        { db2 with reportWorkers := db2.reportWorkers ++
          (ws.filter (fun w => db2.workers.any (fun row => row.id == w))).map (fun w => (rid, w)) }
      | none => db2
    let db4 := match d.equipment_list with
      | some es =>
        { db3 with reportEquipment := db3.reportEquipment ++ es.map (fun e => (rid, e)) }
      | none => db3
    (db4, rid)

/-- The validation failures of `validate_report_data`
(`report_edit.py` lines 1028-1054). The source raises `ValueError` for a
missing required field or a malformed enumerated value, and a `KeyError`
when the `type` key is absent (line 1049 indexes `data['type']` directly);
`missingType` stands for that `KeyError`. Every constructor aborts
`process_save_report` before any database mutation. -/
inductive ValidationErr where
  | missingField (f : String)
  | invalidReportType
  | missingType
  | invalidType
deriving DecidableEq, Repr

/-- The four admitted work categories (`report_edit.py` line 1043). -/
def valid_report_types : List String :=
  ["Инженерные коммуникации", "Внутриплощадочные сети",
   "Благоустройство", "Общестроительные работы"]

/-- Embeds `validate_report_data` (`report_edit.py` lines 1028-1054): require the
keys `object_id`, `report_type`, `itr_list`, `workers_list`,
`equipment_list` to be present, `report_type` to be one of the four work
categories, and `type` to be `morning` or `evening`. -/
def validate_report_data (d : ReportData) : Except ValidationErr Unit :=
  if d.object_id.isNone then Except.error (ValidationErr.missingField "object_id")
  else if d.report_type.isNone then Except.error (ValidationErr.missingField "report_type")
  else if d.itr_list.isNone then Except.error (ValidationErr.missingField "itr_list")
  else if d.workers_list.isNone then Except.error (ValidationErr.missingField "workers_list")
  else if d.equipment_list.isNone then Except.error (ValidationErr.missingField "equipment_list")
  else if !(valid_report_types.contains (d.report_type.getD "")) then
    Except.error ValidationErr.invalidReportType
  else
    match d.type with
    | none => Except.error ValidationErr.missingType
    | some t =>
      if t == "morning" || t == "evening" then Except.ok ()
      else Except.error ValidationErr.invalidType

/-- Embeds `process_save_report` (`report_edit.py` lines 956-1009): validate the
FSM data; on failure show the error and change nothing; on success set
`data['status'] = "sent"` and `data['sent_at'] = utcnow()` — note that
`recipient_id` is *not* put into the dict — and hand the dict to
`crud.create_report`. -/
def process_save_report (db : DB) (d : ReportData) (now : Nat) :
    DB × Except ValidationErr Nat :=
  match validate_report_data d with
  | Except.error e => (db, Except.error e)
  | Except.ok _ =>
    let d1 := { d with status := some "sent", sent_at := some now }
    let res := create_report db d1
    (res.1, Except.ok res.2)

/-- Models `ORDER BY date DESC` — the row order `get_reports_by_date_range` asks
the database for. -/
def dateDescOrder (a b : ReportRow) : Prop := b.date ≤ a.date

instance : DecidableRel dateDescOrder := fun a b => Nat.decLe b.date a.date

instance : IsTotal ReportRow dateDescOrder :=
  ⟨fun a b => Or.symm (Nat.le_total a.date b.date)⟩

instance : IsTrans ReportRow dateDescOrder :=
  ⟨fun _ _ _ hab hbc => Nat.le_trans hbc hab⟩

/-- Embeds `crud.get_reports_by_date_range` (lines 691-714):
`SELECT * FROM reports WHERE date >= start AND date <= end ORDER BY date
DESC`. The sort stands for the database's `ORDER BY`. -/
def get_reports_by_date_range (db : DB) (start_date end_date : Nat) : List ReportRow :=
  List.insertionSort dateDescOrder
    (db.reports.filter (fun r => start_date ≤ r.date && r.date ≤ end_date))

/-! ## Concrete fixtures for witnesses and counterexamples -/

/-- The empty database. -/
def emptyDB : DB :=
  { users := [], clients := [], objects := [], itrs := [], workers := [],
    equipment := [], reports := [], reportItr := [], reportWorkers := [],
    reportEquipment := [], reportPhotos := [], clientObjects := [] }

/-- Fixture: a client user whose single-use access code is `K`. -/
def userK : UserRow :=
  { id := 1, telegram_id := none, username := none, role := "client",
    access_code := some "K" }

/-- Fixture database holding only `userK`. -/
def dbC3 : DB := { emptyDB with users := [userK] }

/-! ## C3 — access-code consumption -/

/-- C3 counterexample: authenticating with code `K` binds the telegram id,
but afterwards the user's `access_code` is still `K` and a second
authentication attempt with the same code again finds a user — the claim
that the code is nulled on use and a second attempt fails is false. -/
theorem access_code_not_consumed_cex :
    (get_user_by_access_code (process_access_code dbC3 100 "alice" "K") "K").isSome = true ∧
    ((process_access_code dbC3 100 "alice" "K").users.all
      (fun u => u.access_code == some "K")) = true := by
  decide

/-- C3 (amended): authenticating with an access code binds `telegram_id`
and `username` to the matching user but leaves `access_code` untouched, so
the same code finds the (re-bound) user again on a second attempt. -/
theorem access_code_rebind (db : DB) (tg : Nat) (un code : String) (u : UserRow)
    (h : get_user_by_access_code db code = some u) :
    get_user_by_access_code (process_access_code db tg un code) code =
      some { u with telegram_id := some tg, username := some un } := by
  have hfind : db.users.find? (fun v => v.access_code == some code) = some u := h
  simp only [process_access_code, h]
  simp only [get_user_by_access_code, update_user_telegram, List.find?_map]
  have hp : ((fun v : UserRow => v.access_code == some code) ∘ (fun v : UserRow =>
      if v.id == u.id then { v with telegram_id := some tg, username := some un } else v))
      = (fun v : UserRow => v.access_code == some code) := by
    funext v
    simp only [Function.comp]
    split <;> rfl
  rw [hp, hfind]
  simp

/-- Witness for `access_code_rebind` at the fixture database. -/
theorem access_code_rebind_witness :
    get_user_by_access_code (process_access_code dbC3 100 "alice" "K") "K" =
      some { id := 1, telegram_id := some 100, username := some "alice",
             role := "client", access_code := some "K" } :=
  access_code_rebind dbC3 100 "alice" "K" userK (by decide)

/-! ## C1 — cascade atomicity -/

deriving instance DecidableEq for Except

/-- Fixture report: a sent report on object 5 with crew, equipment and a photo. -/
def reportC1 : ReportRow :=
  { id := 1, object_id := 5, date := 10, type := "morning",
    report_type := "Благоустройство", work_subtype := none, comments := none,
    status := "sent", sent_at := some 11, recipient_id := some 2 }

/-- Fixture photo owned by `reportC1`. -/
def photoC1 : PhotoRow :=
  { id := 1, report_id := 1, file_path := "photos/1.jpg", description := none }

/-- Fixture object row for the cascade scenarios. -/
def objectC1 : ObjectRow := { id := 5, name := "Site A" }

/-- Fixture database: object 5 carries one report with one ITR link, one
worker link, one equipment link, one photo, and one client link. -/
def dbC1 : DB :=
  { emptyDB with
    objects := [objectC1],
    itrs := [{ id := 10, full_name := "Ivanov" }],
    reports := [reportC1],
    reportItr := [(1, 10)],
    reportWorkers := [(1, 20)],
    reportEquipment := [(1, 30)],
    reportPhotos := [photoC1],
    clientObjects := [(7, 5)] }

/-- C1: the deletion cascade of `delete_object` is *not* atomic.
`delete_report_relations` commits mid-cascade (crud.py line 537), so when
the very next step — deleting the report row — raises, the `except`-clause
rollback of `delete_object` can no longer restore the join rows and photos:
the committed state after the failed call has lost the report's
`report_itr`, `report_workers`, `report_equipment` and `report_photos`
rows while the report, object and `client_objects` rows are still present.
This contradicts the all-or-nothing contract the spec states and the
rollback handler of `delete_object` itself intends. -/
theorem delete_object_rollback_loses_relations :
    (delete_object { committed := dbC1, current := dbC1 } 5 (some 1)).2 =
      Except.error () ∧
    (delete_object { committed := dbC1, current := dbC1 } 5 (some 1)).1.committed =
      { dbC1 with reportItr := [], reportWorkers := [], reportEquipment := [],
                  reportPhotos := [] } ∧
    dbC1.reportItr ≠ [] ∧ dbC1.reportWorkers ≠ [] ∧
    dbC1.reportEquipment ≠ [] ∧ dbC1.reportPhotos ≠ [] := by
  decide

/-! ## C2 — cascade completeness of `delete_object` -/

/-- Runs `delete_object` in a fresh session against database `db`, with no
injected failure. -/
def runDeleteObject (db : DB) (oid : Nat) : Tx × Except Unit Bool :=
  delete_object { committed := db, current := db } oid none

/-- No join row, photo row, or report row references report `rid`. -/
def reportCleared (db : DB) (rid : Nat) : Prop :=
  (∀ p ∈ db.reportItr, p.1 ≠ rid) ∧
  (∀ p ∈ db.reportWorkers, p.1 ≠ rid) ∧
  (∀ p ∈ db.reportEquipment, p.1 ≠ rid) ∧
  (∀ ph ∈ db.reportPhotos, ph.report_id ≠ rid) ∧
  (∀ r ∈ db.reports, r.id ≠ rid)

theorem reportCleared_clear (db : DB) (rid rid2 : Nat)
    (h : reportCleared db rid) : reportCleared (clearReportRelations db rid2) rid := by
  obtain ⟨h1, h2, h3, h4, h5⟩ := h
  refine ⟨?_, ?_, ?_, ?_, h5⟩ <;> intro x hx
  · exact h1 x (List.mem_filter.mp hx).1
  · exact h2 x (List.mem_filter.mp hx).1
  · exact h3 x (List.mem_filter.mp hx).1
  · exact h4 x (List.mem_filter.mp hx).1

theorem reportCleared_deleteRow (db : DB) (rid rid2 : Nat)
    (h : reportCleared db rid) : reportCleared (deleteReportRow db rid2) rid := by
  obtain ⟨h1, h2, h3, h4, h5⟩ := h
  exact ⟨h1, h2, h3, h4, fun r hr => h5 r (List.mem_filter.mp hr).1⟩

theorem reportCleared_step (db : DB) (rid : Nat) :
    reportCleared (deleteReportRow (clearReportRelations db rid) rid) rid := by
  refine ⟨?_, ?_, ?_, ?_, ?_⟩ <;> intro x hx
  · simpa using (List.mem_filter.mp hx).2
  · simpa using (List.mem_filter.mp hx).2
  · simpa using (List.mem_filter.mp hx).2
  · simpa using (List.mem_filter.mp hx).2
  · simpa using (List.mem_filter.mp hx).2

theorem loop_no_raise (reps : List ReportRow) :
    ∀ t : Tx, (deleteObjectReportsLoop none t reps).2 = false := by
  induction reps with
  | nil => intro t; rfl
  | cons r rest ih =>
    intro t
    simp only [deleteObjectReportsLoop]
    exact ih _

theorem loop_preserves (reps : List ReportRow) :
    ∀ (t : Tx) (rid : Nat), reportCleared t.current rid →
      reportCleared (deleteObjectReportsLoop none t reps).1.current rid := by
  induction reps with
  | nil => intro t rid h; exact h
  | cons r rest ih =>
    intro t rid h
    simp only [deleteObjectReportsLoop]
    exact ih _ rid (reportCleared_deleteRow _ _ _ (reportCleared_clear _ _ _ h))

theorem loop_establishes (reps : List ReportRow) :
    ∀ (t : Tx) (r : ReportRow), r ∈ reps →
      reportCleared (deleteObjectReportsLoop none t reps).1.current r.id := by
  induction reps with
  | nil => intro t r hr; cases hr
  | cons r0 rest ih =>
    intro t r hr
    simp only [deleteObjectReportsLoop]
    rcases List.mem_cons.mp hr with heq | hmem
    · subst heq
      exact loop_preserves rest _ r.id (reportCleared_step _ _)
    · exact ih _ r hmem

/-- C2: cascade completeness of `delete_object`. When the object exists the
call returns `true` and afterwards, for every report of the object, no
`report_itr`, `report_workers`, `report_equipment` or `report_photos` row
references the report's id and the report row itself is gone; every
`client_objects` row of the object and the object row are gone too. When
the object does not exist the call returns `false` and changes nothing. -/
theorem delete_object_cascade_complete (db : DB) (oid : Nat) :
    (db.objects.any (fun o => o.id == oid) = false →
      runDeleteObject db oid = ({ committed := db, current := db }, Except.ok false)) ∧
    (db.objects.any (fun o => o.id == oid) = true →
      (runDeleteObject db oid).2 = Except.ok true ∧
      (∀ r ∈ db.reports, r.object_id = oid →
        reportCleared (runDeleteObject db oid).1.committed r.id) ∧
      (∀ p ∈ (runDeleteObject db oid).1.committed.clientObjects, p.2 ≠ oid) ∧
      (∀ o ∈ (runDeleteObject db oid).1.committed.objects, o.id ≠ oid)) := by
  constructor
  · intro h
    simp [runDeleteObject, delete_object, h]
  · intro h
    rcases hL : deleteObjectReportsLoop none { committed := db, current := db }
        (db.reports.filter (fun r => r.object_id == oid)) with ⟨t1, b⟩
    have hb : b = false := by
      have h2 := loop_no_raise (db.reports.filter (fun r => r.object_id == oid))
        { committed := db, current := db }
      rw [hL] at h2
      exact h2
    subst hb
    refine ⟨?_, ?_, ?_, ?_⟩
    · simp [runDeleteObject, delete_object, h, hL]
    · intro r hr hobj
      have hc := loop_establishes (db.reports.filter (fun r => r.object_id == oid))
        { committed := db, current := db } r
        (List.mem_filter.mpr ⟨hr, by simp [hobj]⟩)
      rw [hL] at hc
      simp only [runDeleteObject, delete_object, h, hL, if_true, txCommit]
      exact hc
    · intro p hp
      simp only [runDeleteObject, delete_object, h, hL, if_true, txCommit] at hp
      simpa using (List.mem_filter.mp hp).2
    · intro o ho
      simp only [runDeleteObject, delete_object, h, hL, if_true, txCommit] at ho
      simpa using (List.mem_filter.mp ho).2

/-- Witness for `delete_object_cascade_complete`: an absent object is a
no-op returning `false`, and deleting object 5 of the fixture returns
`true` and clears every reference to its report. -/
theorem delete_object_cascade_complete_witness :
    runDeleteObject emptyDB 5 =
      ({ committed := emptyDB, current := emptyDB }, Except.ok false) ∧
    (runDeleteObject dbC1 5).2 = Except.ok true ∧
    reportCleared (runDeleteObject dbC1 5).1.committed 1 := by
  refine ⟨(delete_object_cascade_complete emptyDB 5).1 (by decide),
    ((delete_object_cascade_complete dbC1 5).2 (by decide)).1, ?_⟩
  exact ((delete_object_cascade_complete dbC1 5).2 (by decide)).2.1
    reportC1 (by decide) (by decide)

/-! ## C4 — finalize precondition gating -/

theorem validate_ok_shape (d : ReportData) (h : validate_report_data d = Except.ok ()) :
    d.object_id ≠ none ∧ d.report_type ≠ none ∧ d.itr_list ≠ none ∧
    d.workers_list ≠ none ∧ d.equipment_list ≠ none ∧
    valid_report_types.contains (d.report_type.getD "") = true ∧
    ∃ t, d.type = some t ∧ (t = "morning" ∨ t = "evening") := by
  unfold validate_report_data at h
  split at h
  case isTrue => simp at h
  case isFalse h1 =>
  split at h
  case isTrue => simp at h
  case isFalse h2 =>
  split at h
  case isTrue => simp at h
  case isFalse h3 =>
  split at h
  case isTrue => simp at h
  case isFalse h4 =>
  split at h
  case isTrue => simp at h
  case isFalse h5 =>
  split at h
  case isTrue => simp at h
  case isFalse h6 =>
  split at h
  next heq => simp at h
  next t heq =>
    split at h
    next h7 =>
      exact ⟨by simpa using h1, by simpa using h2, by simpa using h3,
        by simpa using h4, by simpa using h5, by simpa using h6,
        t, heq, by simpa using h7⟩
    next h7 => simp at h

/-- C4: when the accumulated FSM data misses `report_type` (or any other
required field `object_id`, `itr_list`, `workers_list`, `equipment_list`),
or its `report_type` is not one of the four fixed work categories, or its
`type` is not `morning`/`evening`, the save handler's validation raises
and `process_save_report` performs no mutation at all: the database — and
with it every draft report's `status` — is left exactly as it was. -/
theorem finalize_validation_gating (db : DB) (d : ReportData) (now : Nat)
    (h : d.object_id = none ∨ d.report_type = none ∨ d.itr_list = none ∨
      d.workers_list = none ∨ d.equipment_list = none ∨
      valid_report_types.contains (d.report_type.getD "") = false ∨
      (∀ t, d.type = some t → (t ≠ "morning" ∧ t ≠ "evening"))) :
    (∃ e, validate_report_data d = Except.error e) ∧
    (process_save_report db d now).1 = db ∧
    (∃ e, (process_save_report db d now).2 = Except.error e) := by
  have hv : ∃ e, validate_report_data d = Except.error e := by
    rcases hE : validate_report_data d with e | u
    · exact ⟨e, rfl⟩
    · exfalso
      cases u
      obtain ⟨s1, s2, s3, s4, s5, s6, t, ht, hor⟩ := validate_ok_shape d hE
      rcases h with h | h | h | h | h | h | h
      · exact s1 h
      · exact s2 h
      · exact s3 h
      · exact s4 h
      · exact s5 h
      · rw [h] at s6; cases s6
      · obtain ⟨hm, hev⟩ := h t ht
        rcases hor with h' | h'
        · exact hm h'
        · exact hev h'
  obtain ⟨e, he⟩ := hv
  exact ⟨⟨e, he⟩, by simp [process_save_report, he], ⟨e, by simp [process_save_report, he]⟩⟩

/-- Fixture FSM data for a draft with everything present except
`report_type`. -/
def dC4 : ReportData :=
  { object_id := some 5, itr_list := some [10], workers_list := some [20],
    equipment_list := some [30], type := some "morning", report_id := some 1 }

/-- Witness for `finalize_validation_gating`: saving the fixture draft with
`report_type` missing leaves the database untouched. -/
theorem finalize_validation_gating_witness :
    (process_save_report dbC1 dC4 99).1 = dbC1 :=
  (finalize_validation_gating dbC1 dC4 99 (Or.inr (Or.inl rfl))).2.1

/-! ## Shape lemmas for `create_report` -/

theorem create_report_update_shape (db : DB) (d : ReportData) (rid : Nat)
    (h1 : d.report_id = some rid)
    (h2 : db.reports.any (fun r => r.id == rid) = true) :
    (create_report db d).1.reports =
      db.reports.map (fun r => if r.id == rid then applyDataToReport r d else r) ∧
    (create_report db d).2 = rid := by
  unfold create_report
  rw [h1]
  simp only [Option.some_bind, h2, if_true]
  cases h3 : d.itr_id <;> cases h4 : d.equipment_list <;>
    simp [h3, h4] <;> split <;> simp

theorem create_report_create_shape (db : DB) (d : ReportData)
    (h : d.report_id.bind (fun rid =>
      if db.reports.any (fun r => r.id == rid) then some rid else none) = none) :
    (create_report db d).1.reports =
      db.reports ++ [applyDataToReport (defaultReport (freshReportId db)) d] ∧
    (create_report db d).2 = freshReportId db := by
  unfold create_report
  rw [h]
  cases h3 : d.itr_id <;> cases h4 : d.workers_list <;> cases h5 : d.equipment_list <;>
    simp [h3, h4, h5] <;> split <;> simp

/-! ## C10 — upsert fall-through of `create_report` -/

theorem mem_le_foldr_max (l : List Nat) (x : Nat) (hx : x ∈ l) :
    x ≤ l.foldr Nat.max 0 := by
  induction hx with
  | head as => exact Nat.le_max_left _ _
  | tail b hmem ih => exact Nat.le_trans ih (Nat.le_max_right _ _)

/-- C10: a `create_report` call whose dict carries a `report_id` matching no
existing report does not fail: it falls through to the create path,
appending a brand-new report row built from the supplied fields under a
fresh id that no existing report carries. -/
theorem create_report_upsert_fallthrough (db : DB) (d : ReportData) (rid : Nat)
    (h1 : d.report_id = some rid) (h2 : ∀ r ∈ db.reports, r.id ≠ rid) :
    (create_report db d).2 = freshReportId db ∧
    (create_report db d).1.reports =
      db.reports ++ [applyDataToReport (defaultReport (freshReportId db)) d] ∧
    (∀ r ∈ db.reports, r.id ≠ freshReportId db) := by
  have hany : db.reports.any (fun r => r.id == rid) = false := by
    rw [List.any_eq_false]
    intro r hr
    simp [h2 r hr]
  have hbind : d.report_id.bind (fun rid2 =>
      if db.reports.any (fun r => r.id == rid2) then some rid2 else none) = none := by
    rw [h1]
    simp [hany]
    exact h2
  obtain ⟨hs1, hs2⟩ := create_report_create_shape db d hbind
  refine ⟨hs2, hs1, ?_⟩
  intro r hr
  have hle : r.id ≤ (db.reports.map (fun r => r.id)).foldr Nat.max 0 :=
    mem_le_foldr_max _ _ (List.mem_map.mpr ⟨r, hr, rfl⟩)
  unfold freshReportId
  omega

/-- Fixture dict: an edit of the (deleted, hence non-existent) report 99. -/
def dC10 : ReportData :=
  { report_id := some 99, object_id := some 5,
    report_type := some "Благоустройство", type := some "morning" }

/-- Witness for `create_report_upsert_fallthrough`: editing missing report
99 against the fixture silently creates a fresh report instead of failing. -/
theorem create_report_upsert_fallthrough_witness :
    (create_report dbC1 dC10).2 = freshReportId dbC1 :=
  (create_report_upsert_fallthrough dbC1 dC10 99 rfl (by decide)).1

/-! ## C5 — status transition and `sent_at`/`recipient_id` coupling -/

/-- Fixture draft report on object 5. -/
def reportC5 : ReportRow :=
  { id := 1, object_id := 5, date := 10, type := "morning",
    report_type := "Благоустройство", work_subtype := none, comments := none,
    status := "draft", sent_at := none, recipient_id := none }

/-- Fixture database with one draft report and its referenced entities. -/
def dbC5 : DB :=
  { emptyDB with
    objects := [objectC1],
    itrs := [{ id := 10, full_name := "Ivanov" }],
    workers := [{ id := 20, full_name := "Petrov", position := "mason" }],
    equipment := [{ id := 30, name := "crane" }],
    reports := [reportC5] }

/-- Fixture FSM data of a fully filled draft (as `process_save_report`
receives it: no `recipient_id` key exists in the FSM state). -/
def dC5 : ReportData :=
  { report_id := some 1, object_id := some 5,
    report_type := some "Благоустройство", type := some "morning",
    itr_list := some [10], workers_list := some [20], equipment_list := some [30] }

/-- C5 counterexample: finalizing the fixture draft through
`process_save_report` yields a report with `status = "sent"` and
`sent_at` set while `recipient_id` is still `NULL` — `sent_at` and
`recipient_id` are *not* always set together at the draft → sent
transition, contrary to the claim. -/
theorem sent_at_without_recipient_cex :
    dbC5.reports.all (fun r => r.status == "draft" && r.sent_at == none) = true ∧
    (process_save_report dbC5 dC5 99).1.reports.all
      (fun r => r.status == "sent" && r.sent_at == some 99 &&
        r.recipient_id == none) = true ∧
    (process_save_report dbC5 dC5 99).1.reports.length = 1 := by
  decide

theorem create_report_rows_classified (db : DB) (d : ReportData) (now : Nat)
    (hst : d.status = some "sent") (hsa : d.sent_at = some now)
    (hrec : d.recipient_id = none) :
    ∀ r2 ∈ (create_report db d).1.reports,
      r2 ∈ db.reports ∨
      (r2.status = "sent" ∧ r2.sent_at = some now ∧
        (r2.recipient_id = none ∨
          ∃ r ∈ db.reports, r.id = r2.id ∧ r2.recipient_id = r.recipient_id)) := by
  intro r2 h2
  rcases hB : d.report_id.bind (fun rid2 =>
      if db.reports.any (fun r => r.id == rid2) then some rid2 else none) with _ | rid
  · obtain ⟨hs1, _⟩ := create_report_create_shape db d hB
    rw [hs1] at h2
    rcases List.mem_append.mp h2 with hL | hR
    · exact Or.inl hL
    · have hEq : r2 = applyDataToReport (defaultReport (freshReportId db)) d :=
        List.mem_singleton.mp hR
      subst hEq
      refine Or.inr ⟨?_, ?_, Or.inl ?_⟩
      · simp [applyDataToReport, hst]
      · simp [applyDataToReport, hsa]
      · simp [applyDataToReport, defaultReport, hrec]
  · have hrep : d.report_id = some rid ∧
        db.reports.any (fun r => r.id == rid) = true := by
      rcases hO : d.report_id with _ | rid3
      · rw [hO] at hB; simp at hB
      · rw [hO] at hB
        simp only [Option.some_bind] at hB
        split at hB
        next hA =>
          cases hB
          exact ⟨rfl, hA⟩
        next hA => cases hB
    obtain ⟨hs1, _⟩ := create_report_update_shape db d rid hrep.1 hrep.2
    rw [hs1] at h2
    obtain ⟨r0, hr0, hEq⟩ := List.mem_map.mp h2
    by_cases hid : (r0.id == rid) = true
    · rw [if_pos hid] at hEq
      subst hEq
      refine Or.inr ⟨?_, ?_, Or.inr ⟨r0, hr0, ?_, ?_⟩⟩
      · simp [applyDataToReport, hst]
      · simp [applyDataToReport, hsa]
      · rfl
      · simp [applyDataToReport, hrec]
    · rw [if_neg hid] at hEq
      exact Or.inl (hEq ▸ hr0)

/-- C5 (amended): a report's `status` only ever moves `draft → sent` and
never backward. `ReportService.send_report` sets `status`, `sent_at` and
`recipient_id` together on the targeted report and leaves every other
report untouched. The finalize handler (`process_save_report`), however,
moves a draft to `sent` setting `sent_at` but *leaving `recipient_id`
unchanged* (the FSM data carries no `recipient_id`), so a sent report may
carry `sent_at` without `recipient_id`. -/
theorem status_transition_amended (db : DB) (rid recip now : Nat) (d : ReportData)
    (hrec : d.recipient_id = none) :
    List.Forall₂ (fun r r2 : ReportRow =>
        (r.status = "sent" → r2.status = "sent") ∧
        (r2 = r ∨ (r2.id = r.id ∧ r2.status = "sent" ∧ r2.sent_at = some now ∧
          r2.recipient_id = some recip)))
      db.reports (send_report db rid recip now).reports ∧
    (∀ r2 ∈ (process_save_report db d now).1.reports,
      r2 ∈ db.reports ∨
      (r2.status = "sent" ∧ r2.sent_at = some now ∧
        (r2.recipient_id = none ∨
          ∃ r ∈ db.reports, r.id = r2.id ∧ r2.recipient_id = r.recipient_id))) := by
  constructor
  · simp only [send_report]
    rw [List.forall₂_map_right_iff]
    refine List.forall₂_same.mpr ?_
    intro r hr
    by_cases hid : (r.id == rid) = true
    · rw [if_pos hid]
      exact ⟨fun _ => rfl, Or.inr ⟨rfl, rfl, rfl, rfl⟩⟩
    · rw [if_neg hid]
      exact ⟨fun h => h, Or.inl rfl⟩
  · intro r2 h2
    rcases hv : validate_report_data d with e | u
    · simp only [process_save_report, hv] at h2
      exact Or.inl h2
    · cases u
      simp only [process_save_report, hv] at h2
      exact create_report_rows_classified db
        { d with status := some "sent", sent_at := some now } now rfl rfl hrec r2 h2

/-- Witness for `status_transition_amended` at the fixture database. -/
theorem status_transition_amended_witness :
    List.Forall₂ (fun r r2 : ReportRow =>
        (r.status = "sent" → r2.status = "sent") ∧
        (r2 = r ∨ (r2.id = r.id ∧ r2.status = "sent" ∧ r2.sent_at = some 99 ∧
          r2.recipient_id = some 7)))
      dbC5.reports (send_report dbC5 1 7 99).reports :=
  (status_transition_amended dbC5 1 7 99 dC5 rfl).1

/-! ## C6 — `SetCrewITR` replaces -/

/-- Fixture ITR rows. -/
def itr10 : ItrRow := { id := 10, full_name := "Ivanov" }

/-- Second fixture ITR row. -/
def itr11 : ItrRow := { id := 11, full_name := "Sidorov" }

/-- Fixture database for the ITR-replacement scenario. -/
def dbC6 : DB := { emptyDB with itrs := [itr10, itr11], reports := [reportC5] }

/-- State of `dbC6` after `SetCrewITR(1, [10, 11])`. -/
def dbC6a : DB := { dbC6 with reportItr := [(1, 10), (1, 11)] }

/-- State of `dbC6a` after `SetCrewITR(1, [11])`. -/
def dbC6b : DB := { dbC6 with reportItr := [(1, 11)] }

/-- C6: two successive `add_itr_to_report` calls on an existing report leave
the report associated with exactly the *existing* ITR ids of the second
set: replacement, not union, with unknown ids silently skipped. -/
theorem set_crew_itr_replaces (db : DB) (rid : Nat) (s1 s2 : List Nat) (db1 db2 : DB)
    (h1 : add_itr_to_report db rid s1 = some db1)
    (h2 : add_itr_to_report db1 rid s2 = some db2) :
    ∀ i, (rid, i) ∈ db2.reportItr ↔ (i ∈ s2 ∧ ∃ row ∈ db.itrs, row.id = i) := by
  unfold add_itr_to_report at h1 h2
  split at h1
  case isTrue hc1 =>
    cases h1
    split at h2
    case isTrue hc2 =>
      cases h2
      intro i
      simp [List.mem_append, List.mem_filter, List.mem_map, List.any_eq_true]
    case isFalse hc2 => simp [hc1] at hc2
  case isFalse hc1 => cases h1

/-- Witness for `set_crew_itr_replaces` on the `{10,11}` then `{11}`
scenario: 11 is kept, 10 is gone. -/
theorem set_crew_itr_replaces_witness :
    ((1, 11) ∈ dbC6b.reportItr ↔ (11 ∈ [11] ∧ ∃ row ∈ dbC6.itrs, row.id = 11)) ∧
    ((1, 10) ∈ dbC6b.reportItr ↔ (10 ∈ [11] ∧ ∃ row ∈ dbC6.itrs, row.id = 10)) :=
  ⟨set_crew_itr_replaces dbC6 1 [10, 11] [11] dbC6a dbC6b (by decide) (by decide) 11,
   set_crew_itr_replaces dbC6 1 [10, 11] [11] dbC6a dbC6b (by decide) (by decide) 10⟩

/-! ## C7 — `SetWorkers` accumulates -/

/-- Fixture worker rows. -/
def workerA : WorkerRow := { id := 1, full_name := "A", position := "mason" }

/-- Second fixture worker row. -/
def workerB : WorkerRow := { id := 2, full_name := "B", position := "mason" }

/-- Third fixture worker row. -/
def workerC : WorkerRow := { id := 3, full_name := "C", position := "mason" }

/-- Fixture database for the worker-accumulation scenario. -/
def dbC7 : DB :=
  { emptyDB with workers := [workerA, workerB, workerC], reports := [reportC5] }

/-- State of `dbC7` after `SetWorkers(1, [1, 2])`. -/
def dbC7a : DB := { dbC7 with reportWorkers := [(1, 1), (1, 2)] }

/-- State of `dbC7a` after `SetWorkers(1, [3])`. -/
def dbC7b : DB := { dbC7 with reportWorkers := [(1, 1), (1, 2), (1, 3)] }

/-- C7: two successive `add_workers_to_report` calls merge with the already
associated workers — the report ends associated with the union of the prior
associations and both given sets (restricted to existing worker ids),
not with a replacement by the last set. -/
theorem set_workers_accumulate (db : DB) (rid : Nat) (s1 s2 : List Nat) (db1 db2 : DB)
    (h1 : add_workers_to_report db rid s1 = some db1)
    (h2 : add_workers_to_report db1 rid s2 = some db2) :
    ∀ w, (rid, w) ∈ db2.reportWorkers ↔
      ((rid, w) ∈ db.reportWorkers ∨
       (w ∈ s1 ∧ ∃ row ∈ db.workers, row.id = w) ∨
       (w ∈ s2 ∧ ∃ row ∈ db.workers, row.id = w)) := by
  unfold add_workers_to_report at h1 h2
  split at h1
  case isTrue hc1 =>
    cases h1
    split at h2
    case isTrue hc2 =>
      cases h2
      intro w
      simp [List.mem_append, List.mem_filter, List.mem_map, List.any_eq_true, or_assoc]
    case isFalse hc2 => simp [hc1] at hc2
  case isFalse hc1 => cases h1

/-- Witness for `set_workers_accumulate` on the `{1,2}` then `{3}`
scenario: all of 1, 2, 3 end associated. -/
theorem set_workers_accumulate_witness :
    ((1, 1) ∈ dbC7b.reportWorkers ↔
      ((1, 1) ∈ dbC7.reportWorkers ∨
       (1 ∈ [1, 2] ∧ ∃ row ∈ dbC7.workers, row.id = 1) ∨
       (1 ∈ [3] ∧ ∃ row ∈ dbC7.workers, row.id = 1))) ∧
    ((1, 3) ∈ dbC7b.reportWorkers ↔
      ((1, 3) ∈ dbC7.reportWorkers ∨
       (3 ∈ [1, 2] ∧ ∃ row ∈ dbC7.workers, row.id = 3) ∨
       (3 ∈ [3] ∧ ∃ row ∈ dbC7.workers, row.id = 3))) :=
  ⟨set_workers_accumulate dbC7 1 [1, 2] [3] dbC7a dbC7b (by decide) (by decide) 1,
   set_workers_accumulate dbC7 1 [1, 2] [3] dbC7a dbC7b (by decide) (by decide) 3⟩

/-! ## C8 — `SetEquipment` idempotence -/

/-- Fixture equipment row. -/
def equip30 : EquipmentRow := { id := 30, name := "crane" }

/-- Fixture database for the equipment scenario. -/
def dbC8 : DB := { emptyDB with equipment := [equip30], reports := [reportC5] }

/-- State of `dbC8` after `SetEquipment(1, [30])` (once or twice). -/
def dbC8a : DB := { dbC8 with reportEquipment := [(1, 30)] }

/-- C8: `add_equipment_to_report` is idempotent — repeating the call with
the same id set `S` changes nothing, because each call drops every
`report_equipment` row of the report before inserting the new set; after
the call(s) the report's rows are exactly those implied by the existing
ids of `S`, without duplicates. -/
theorem set_equipment_idempotent (db : DB) (rid : Nat) (s : List Nat) (db1 db2 : DB)
    (hs : s.Nodup)
    (h1 : add_equipment_to_report db rid s = some db1)
    (h2 : add_equipment_to_report db1 rid s = some db2) :
    db2 = db1 ∧
    db1.reportEquipment.filter (fun p => p.1 == rid) =
      (s.filter (fun e => db.equipment.any (fun row => row.id == e))).map
        (fun e => (rid, e)) ∧
    (db1.reportEquipment.filter (fun p => p.1 == rid)).Nodup := by
  unfold add_equipment_to_report at h1 h2
  split at h1
  case isTrue hc1 =>
    cases h1
    split at h2
    case isTrue hc2 =>
      cases h2
      refine ⟨?_, ?_, ?_⟩
      · simp [List.filter_append, List.filter_filter, List.filter_map,
          Function.comp, Bool.and_self, bne_self_eq_false]
      · simp [List.filter_append, List.filter_filter, List.filter_map,
          Function.comp, bne, Bool.and_not_self]
      · simp [List.filter_append, List.filter_filter, List.filter_map,
          Function.comp, bne, Bool.and_not_self]
        exact List.Nodup.map
          (fun a b hab => by injection hab with hx hy)
          (hs.filter _)
    case isFalse hc2 => simp [hc1] at hc2
  case isFalse hc1 => cases h1

/-- Witness for `set_equipment_idempotent` with `S = [30]` on the fixture. -/
theorem set_equipment_idempotent_witness :
    dbC8a.reportEquipment.filter (fun p => p.1 == 1) =
      ([30].filter (fun e => dbC8.equipment.any (fun row => row.id == e))).map
        (fun e => (1, e)) ∧
    (dbC8a.reportEquipment.filter (fun p => p.1 == 1)).Nodup :=
  ⟨(set_equipment_idempotent dbC8 1 [30] dbC8a dbC8a (by decide) (by decide)
      (by decide)).2.1,
   (set_equipment_idempotent dbC8 1 [30] dbC8a dbC8a (by decide) (by decide)
      (by decide)).2.2⟩

/-! ## C9 — date-range query -/

/-- Fixture database for the date-range query. -/
def dbC9 : DB := { emptyDB with reports := [reportC5, reportC1] }

/-- C9: `get_reports_by_date_range` returns exactly the reports with
`start <= date <= end` — a permutation of that filter, membership matching
the inclusive bounds — sorted by `date` descending; an unsatisfiable range
(`end < start`) yields the empty list, not an error. -/
theorem date_range_query (db : DB) (s e : Nat) :
    (get_reports_by_date_range db s e).Perm
      (db.reports.filter (fun r => s ≤ r.date && r.date ≤ e)) ∧
    (∀ r, r ∈ get_reports_by_date_range db s e ↔
      (r ∈ db.reports ∧ s ≤ r.date ∧ r.date ≤ e)) ∧
    List.Sorted dateDescOrder (get_reports_by_date_range db s e) ∧
    (e < s → get_reports_by_date_range db s e = []) := by
  refine ⟨List.perm_insertionSort _ _, ?_, List.sorted_insertionSort _ _, ?_⟩
  · intro r
    unfold get_reports_by_date_range
    rw [(List.perm_insertionSort dateDescOrder _).mem_iff]
    simp [List.mem_filter]
  · intro hlt
    unfold get_reports_by_date_range
    have hnil : db.reports.filter (fun r => s ≤ r.date && r.date ≤ e) = [] := by
      rw [List.filter_eq_nil_iff]
      intro r hr
      simp only [Bool.and_eq_true, decide_eq_true_eq, not_and]
      intro h1 h2
      omega
    rw [hnil]
    rfl

/-- Witness for `date_range_query` on the fixture: the result is sorted
and an empty range returns the empty list. -/
theorem date_range_query_witness :
    List.Sorted dateDescOrder (get_reports_by_date_range dbC9 1 20) ∧
    get_reports_by_date_range dbC9 20 1 = [] :=
  ⟨(date_range_query dbC9 1 20).2.2.1,
   (date_range_query dbC9 20 1).2.2.2 (by decide)⟩
